import Mathlib

/-!
# StoryMapCore — verification of the slide-to-map synchronization engine

Shallow embedding of the core state machine of `StoryMap`
(`docs/SimpleStoryMapLibJS/storymap-core.js`), of the multilingual provider
(`docs/SimpleStoryMapLibJS/providers/multilingual-provider.js`) and of the
language-switch logic of the inline example (`storymapcore/providers/data-providers.js`).

JavaScript numbers that reach the geo utilities are modelled by `JSNumber`
(NaN, ±Infinity, or an exact finite value); raw slide-field values by `JSVal`.
DOM rendering, the map canvas and the camera (`flyTo`) perform no modelled
state change; the modelled state is exactly the data the invariants of the
spec talk about: `currentSlideIndex`, `isAnimating`, the two GeoJSON marker
sources and the list of line layers with their current `line-color` paint value.
-/

set_option maxRecDepth 4000

namespace StoryMapCore

/-! ## JavaScript numeric values and `parseFloat` -/

/-- Result classification of a JavaScript number: `NaN`, `±Infinity`,
or a finite value (modelled exactly as a rational). -/
inductive JSNumber where
  | nan
  | posInf
  | negInf
  | finite (q : ℚ)
deriving DecidableEq, Repr

def JSNumber.isNaN : JSNumber → Bool
  | .nan => true
  | _ => false

def JSNumber.isFiniteNum : JSNumber → Bool
  | .finite _ => true
  | _ => false

/-- A raw JavaScript value stored in a slide field (`location.lat`, `location.lon`):
`null`, `undefined`, a number, or a string. -/
inductive JSVal where
  | null
  | undefined
  | num (x : JSNumber)
  | str (s : String)
deriving DecidableEq, Repr

/-- Whitespace accepted by `parseFloat` before the number (common ASCII subset). -/
def isJsWs (c : Char) : Bool :=
  c = ' ' || c = '\t' || c = '\n' || c = '\r'

def skipWs : List Char → List Char
  | c :: cs => if isJsWs c then skipWs cs else c :: cs
  | [] => []

/-- Take the leading decimal digits, returning their values and the rest. -/
def takeDigits : List Char → List Nat × List Char
  | c :: cs =>
    if c.isDigit then
      let p := takeDigits cs
      ((c.toNat - '0'.toNat) :: p.1, p.2)
    else ([], c :: cs)
  | [] => ([], [])

def digitsVal (ds : List Nat) : Nat := ds.foldl (fun a d => 10 * a + d) 0

/-- Exponent digits after `e`/`E` and an optional sign; if there are no digits the
exponent part is not consumed and the base value stands (`parseFloat("1e") = 1`). -/
def expDigits (base : ℚ) (neg : Bool) (cs : List Char) : ℚ :=
  let p := takeDigits cs
  if p.1 = [] then base
  else if neg then base / (10 ^ digitsVal p.1) else base * (10 ^ digitsVal p.1)

def expTail (base : ℚ) : List Char → ℚ
  | '+' :: rest => expDigits base false rest
  | '-' :: rest => expDigits base true rest
  | rest => expDigits base false rest

def applyExponent (base : ℚ) : List Char → ℚ
  | 'e' :: rest => expTail base rest
  | 'E' :: rest => expTail base rest
  | _ => base

/-- Unsigned decimal literal: `digits`, `digits.digits?`, or `.digits`;
`none` when no digit is found. -/
def parseUnsigned (cs : List Char) : Option (ℚ × List Char) :=
  let ip := takeDigits cs
  match ip.2 with
  | '.' :: r2 =>
    let fp := takeDigits r2
    if ip.1 = [] ∧ fp.1 = [] then none
    else some ((digitsVal ip.1 : ℚ) + (digitsVal fp.1 : ℚ) / (10 ^ fp.1.length), fp.2)
  | _ => if ip.1 = [] then none else some ((digitsVal ip.1 : ℚ), ip.2)

/-- Body after the optional sign: the literal `Infinity` or a decimal literal
with optional exponent; anything else is `NaN`. -/
def parseBody (neg : Bool) (cs : List Char) : JSNumber :=
  if cs.take 8 = "Infinity".toList then (if neg then .negInf else .posInf)
  else
    match parseUnsigned cs with
    | none => .nan
    | some (q, rest) =>
      let q2 := applyExponent q rest
      .finite (if neg then -q2 else q2)

def parseSign : List Char → JSNumber
  | '+' :: rest => parseBody false rest
  | '-' :: rest => parseBody true rest
  | rest => parseBody false rest

/-- `parseFloat` on a string: skip leading whitespace, optional sign, then the
longest numeric prefix (`Infinity` or a decimal literal); `NaN` otherwise. -/
def parseFloatString (s : String) : JSNumber :=
  parseSign (skipWs s.toList)

/-- `parseFloat(v)` for the values a slide field can hold. `parseFloat` first
coerces its argument with `String(·)`; on numbers that round-trips exactly
(including `±Infinity` and `NaN`), and `String(null) = "null"`,
`String(undefined) = "undefined"`. -/
def parseFloat : JSVal → JSNumber
  | .num x => x
  | .str s => parseFloatString s
  | .null => parseFloatString "null"
  | .undefined => parseFloatString "undefined"

/-! ## Data model: locations and slides -/

/-- A slide's `location` object. `zoom` only feeds the camera move (not modelled);
`line` holds the raw value of `location.line` (`some b` for a boolean, `none`
when absent), so the source's strict check `location.line === true` becomes
`line == some true`. -/
structure Location where
  lat : JSVal
  lon : JSVal
  line : Option Bool
deriving DecidableEq, Repr

/-- One narrative slide. Only the `location` field drives the modelled state;
`text`, `media` and `background` are rendered to the DOM and never read back. -/
structure Slide where
  location : Option Location
deriving DecidableEq, Repr

/-- `isValidLocation(location)` from storymap-core.js (identically in the three
example implementations): `location && lat !== null && lat !== undefined &&
!isNaN(parseFloat(lat))` and the same for `lon`. An absent (`null`/`undefined`)
location object is falsy, short-circuiting the whole conjunction. -/
def isValidLocation : Option Location → Bool
  | none => false
  | some loc =>
    (loc.lat != JSVal.null) && (loc.lat != JSVal.undefined) &&
      !(parseFloat loc.lat).isNaN &&
    (loc.lon != JSVal.null) && (loc.lon != JSVal.undefined) &&
      !(parseFloat loc.lon).isNaN

/-- `isValidLocation(storyData[i].location)`; out-of-range access yields `false`
(every modelled call site has `i` in range). -/
def validIdx (slides : List Slide) (i : Nat) : Bool :=
  match slides.get? i with
  | some slide => isValidLocation slide.location
  | none => false

/-! ## Marker Layer Manager

The two GeoJSON sources `"inactive-markers"` and `"active-marker"` hold lists of
point features; a feature carries the slide index and `isActive` flag from its
`properties` and the `parseFloat`ed coordinates from its `geometry`. -/

structure MarkerFeature where
  slideIndex : Nat
  isActive : Bool
  /-- `[parseFloat(lon), parseFloat(lat)]` of the slide's location. -/
  coordinates : JSNumber × JSNumber
deriving DecidableEq, Repr

/-- The features of the two marker sources. -/
structure MarkerLayers where
  inactive : List MarkerFeature
  active : List MarkerFeature
deriving DecidableEq, Repr

def activeIndices (m : MarkerLayers) : List Nat := m.active.map (·.slideIndex)

def inactiveIndices (m : MarkerLayers) : List Nat := m.inactive.map (·.slideIndex)

/-- The feature the `storyData.map((slide, index) => ...)` callback of
`createInactiveMarkers` produces for `index`: a point feature when the slide's
location is valid, `null` (here `none`) otherwise. -/
def inactiveFeatureForIndex (slides : List Slide) (index : Nat) : Option MarkerFeature :=
  match slides.get? index with
  | some slide =>
    if isValidLocation slide.location then
      match slide.location with
      | some loc =>
        some { slideIndex := index, isActive := false,
               coordinates := (parseFloat loc.lon, parseFloat loc.lat) }
      | none => none
    else none
  | none => none

/-- `createInactiveMarkers`: one feature per slide index with a valid location
(`storyData.map((slide, index) => ...).filter(f => f !== null)`), in slide order. -/
def createInactiveMarkers (slides : List Slide) : List MarkerFeature :=
  (List.range slides.length).filterMap (inactiveFeatureForIndex slides)

/-- `findIndex` + `splice(k, 1)` over the inactive features: the first feature
with the given slide index together with the list with that feature removed. -/
def extractFirst (slideIndex : Nat) :
    List MarkerFeature → Option (MarkerFeature × List MarkerFeature)
  | [] => none
  | f :: rest =>
    if f.slideIndex = slideIndex then some (f, rest)
    else
      match extractFirst slideIndex rest with
      | none => none
      | some (g, rest2) => some (g, f :: rest2)

/-- `moveMarkerToActive(slideIndex)`: find the feature in the inactive source
(`findIndex`); if absent, no-op; otherwise install it (with `isActive: true`)
as the sole feature of the active source and `splice` it out of the inactive one. -/
def moveMarkerToActive (m : MarkerLayers) (slideIndex : Nat) : MarkerLayers :=
  match extractFirst slideIndex m.inactive with
  | none => m
  | some (f, rest) =>
    { active := [{ f with isActive := true }], inactive := rest }

/-- `moveMarkerToInactive(slideIndex)`: if the active source is empty, early
return; otherwise push its first feature (with `isActive: false`) onto the
inactive source and clear the active source. Note the `slideIndex` argument is
never read by the body. -/
def moveMarkerToInactive (m : MarkerLayers) (slideIndex : Nat) : MarkerLayers :=
  match m.active with
  | [] => m
  | f :: _ =>
    { inactive := m.inactive ++ [{ f with isActive := false }], active := [] }

/-- `getPreviouslyActiveMarkerIndex`: slide index of the first feature of the
active source, or `null`. -/
def getPreviouslyActiveMarkerIndex (m : MarkerLayers) : Option Nat :=
  match m.active with
  | [] => none
  | f :: _ => some f.slideIndex

/-- `updateMarkerColors`: read the previously active index once; if it exists and
differs from the current slide, demote it; then, if the current slide differs
from it and has a valid location, promote the current slide's marker. -/
def updateMarkerColors (slides : List Slide) (currentSlideIndex : Nat)
    (m : MarkerLayers) : MarkerLayers :=
  let previousActiveIndex := getPreviouslyActiveMarkerIndex m
  let m1 :=
    match previousActiveIndex with
    | some p => if p = currentSlideIndex then m else moveMarkerToInactive m p
    | none => m
  if previousActiveIndex = some currentSlideIndex then m1
  else if validIdx slides currentSlideIndex then moveMarkerToActive m1 currentSlideIndex
  else m1

/-- `createAllMarkers`: build the inactive source from every valid slide,
create the (empty) active source, then promote the current slide's marker if
its location is valid. -/
def createAllMarkers (slides : List Slide) (currentSlideIndex : Nat) : MarkerLayers :=
  let m : MarkerLayers := { inactive := createInactiveMarkers slides, active := [] }
  if validIdx slides currentSlideIndex then moveMarkerToActive m currentSlideIndex else m

/-! ## Path Layer Manager -/

/-- The styling constants the line layers read (defaults `"#000000"` / `"#ff0000"`). -/
structure Styling where
  lineColor : String
  lineColorActive : String
deriving DecidableEq, Repr

/-- One registered line layer: `id: line-${index}` (the source index),
`targetSlideIndex: index + 1`, and the current `"line-color"` paint property. -/
structure LineSegment where
  sourceIndex : Nat
  targetSlideIndex : Nat
  lineColor : String
deriving DecidableEq, Repr

/-- The loop condition of `createAllLines` for the pair `(i, i+1)`:
`currentSlide.location && currentSlide.location.line === true &&
isValidLocation(currentSlide.location) && isValidLocation(nextSlide.location)`. -/
def lineQualifies (slides : List Slide) (i : Nat) : Bool :=
  match slides.get? i, slides.get? (i + 1) with
  | some currentSlide, some nextSlide =>
    currentSlide.location.isSome &&
    (match currentSlide.location with
     | some loc => loc.line == some true
     | none => false) &&
    isValidLocation currentSlide.location &&
    isValidLocation nextSlide.location
  | _, _ => false

/-- `createAllLines`: `for (let i = 0; i < storyData.length - 1; i++)`, pushing one
segment per qualifying pair (the great-circle geometry handed to the map source is
not modelled). A fresh layer is painted with the base `lineColor`. -/
def createAllLines (styling : Styling) (slides : List Slide) : List LineSegment :=
  (List.range (slides.length - 1)).filterMap fun i =>
    if lineQualifies slides i then
      some { sourceIndex := i, targetSlideIndex := i + 1, lineColor := styling.lineColor }
    else none

/-- `updateLineColors`: a pure style pass — every registered line whose
`targetSlideIndex` equals the current slide gets the active color, all others the
base color; no layer is added or removed. -/
def updateLineColors (styling : Styling) (currentSlideIndex : Nat)
    (lines : List LineSegment) : List LineSegment :=
  lines.map fun l =>
    if l.targetSlideIndex = currentSlideIndex then { l with lineColor := styling.lineColorActive }
    else { l with lineColor := styling.lineColor }

/-! ## Slide Navigator (core state machine) -/

/-- The `direction` argument of `updateSlide`. -/
inductive Direction where
  | next
  | prev
  | none
deriving DecidableEq, Repr

/-- `config.features` (the two flags that gate modelled behaviour). -/
structure Features where
  animations : Bool
  keyboardNavigation : Bool
deriving DecidableEq, Repr

structure Config where
  features : Features
  styling : Styling
deriving DecidableEq, Repr

/-- The mutable fields of a `StoryMap` instance that the claims talk about.
`markers` mirrors the two GeoJSON marker sources, `lines` the registered line
layers with their current paint colors. -/
structure StoryMapState where
  currentSlideIndex : Nat
  isAnimating : Bool
  markers : MarkerLayers
  lines : List LineSegment
deriving DecidableEq, Repr

/-- Entry of `animateSlideTransition`: sets `isAnimating = true` and schedules the
exit/entrance timers (their content swaps touch only the DOM; the inner timer's
final `isAnimating = false` is modelled by `animationComplete`). -/
def animateSlideTransition (s : StoryMapState) : StoryMapState :=
  { s with isAnimating := true }

/-- The inner `setTimeout` callback of `animateSlideTransition` finishing:
`isAnimating = false`. -/
def animationComplete (s : StoryMapState) : StoryMapState :=
  { s with isAnimating := false }

/-- `updateContent`: with a directional cue, animations enabled and no animation
in flight it enters `animateSlideTransition`; otherwise it swaps the content
synchronously (DOM only — no modelled state change). -/
def updateContent (cfg : Config) (direction : Direction) (s : StoryMapState) :
    StoryMapState :=
  if direction ≠ Direction.none ∧ cfg.features.animations = true ∧ s.isAnimating = false then
    animateSlideTransition s
  else s

/-- `updateSlide(direction)`: bail out when the current slide is missing; update
content (possibly starting an animation), fly the camera (no modelled state),
update progress/buttons/background (DOM only), then recolor lines and move
markers via `updateMapElements`. -/
def updateSlide (cfg : Config) (slides : List Slide) (direction : Direction)
    (s : StoryMapState) : StoryMapState :=
  match slides.get? s.currentSlideIndex with
  | none => s
  | some _ =>
    let s1 := updateContent cfg direction s
    { s1 with
      lines := updateLineColors cfg.styling s1.currentSlideIndex s1.lines,
      markers := updateMarkerColors slides s1.currentSlideIndex s1.markers }

/-- `navigatePrevious`: guarded decrement, then `updateSlide('prev')`. -/
def navigatePrevious (cfg : Config) (slides : List Slide) (s : StoryMapState) :
    StoryMapState :=
  if 0 < s.currentSlideIndex ∧ s.isAnimating = false then
    updateSlide cfg slides Direction.prev { s with currentSlideIndex := s.currentSlideIndex - 1 }
  else s

/-- `navigateNext`: guarded increment, then `updateSlide('next')`. -/
def navigateNext (cfg : Config) (slides : List Slide) (s : StoryMapState) :
    StoryMapState :=
  if s.currentSlideIndex < slides.length - 1 ∧ s.isAnimating = false then
    updateSlide cfg slides Direction.next { s with currentSlideIndex := s.currentSlideIndex + 1 }
  else s

/-- `restart`: if not animating, jump to index 0 (the `flyToSlide` to the first
valid slide moves only the camera), then `updateSlide('none')`. -/
def restart (cfg : Config) (slides : List Slide) (s : StoryMapState) : StoryMapState :=
  if s.isAnimating = false then
    updateSlide cfg slides Direction.none { s with currentSlideIndex := 0 }
  else s

/-- `navigateToSlide(targetIndex)` (also the public `goToSlide`): accepted only
when the target is in `[0, length)` and no animation is in flight; then a
direction-`none` slide update. The JS argument is an arbitrary number, hence `Int`. -/
def navigateToSlide (cfg : Config) (slides : List Slide) (targetIndex : Int)
    (s : StoryMapState) : StoryMapState :=
  if 0 ≤ targetIndex ∧ targetIndex < (slides.length : Int) ∧ s.isAnimating = false then
    updateSlide cfg slides Direction.none { s with currentSlideIndex := targetIndex.toNat }
  else s

/-- The click handler installed on both marker layers: navigate to the clicked
feature's slide index when it differs from the current one and nothing animates. -/
def markerClick (cfg : Config) (slides : List Slide) (clickedSlideIndex : Nat)
    (s : StoryMapState) : StoryMapState :=
  if clickedSlideIndex ≠ s.currentSlideIndex ∧ s.isAnimating = false then
    navigateToSlide cfg slides (clickedSlideIndex : Int) s
  else s

/-- The `keydown` listener for `ArrowLeft` (installed only when
`features.keyboardNavigation` is on). -/
def keydownArrowLeft (cfg : Config) (slides : List Slide) (s : StoryMapState) :
    StoryMapState :=
  if cfg.features.keyboardNavigation then navigatePrevious cfg slides s else s

/-- The `keydown` listener for `ArrowRight`. -/
def keydownArrowRight (cfg : Config) (slides : List Slide) (s : StoryMapState) :
    StoryMapState :=
  if cfg.features.keyboardNavigation then navigateNext cfg slides s else s

/-- The navigation entry points that perform a direction-`none` jump: the public
`goToSlide`/`navigateToSlide`, the restart button, and a marker click (the
post-language-switch refresh of the inline example is likewise a plain
`updateSlide()` with the default direction `"none"`). -/
inductive NoneNavRequest where
  | goTo (targetIndex : Int)
  | restartButton
  | click (clickedSlideIndex : Nat)
deriving DecidableEq, Repr

def applyNoneNav (cfg : Config) (slides : List Slide) :
    NoneNavRequest → StoryMapState → StoryMapState
  | .goTo t, s => navigateToSlide cfg slides t s
  | .restartButton, s => restart cfg slides s
  | .click i, s => markerClick cfg slides i s

/-- The `disabled` flags computed by `updateButtonStates`. -/
structure ButtonStates where
  prevDisabled : Bool
  restartDisabled : Bool
  nextDisabled : Bool
deriving DecidableEq, Repr

/-- `updateButtonStates`: `canGoBack = currentSlideIndex > 0` disables
previous/restart, `canGoNext = currentSlideIndex < storyData.length - 1`
disables next. -/
def updateButtonStates (slides : List Slide) (currentSlideIndex : Nat) : ButtonStates :=
  let canGoBack : Bool := decide (0 < currentSlideIndex)
  let canGoNext : Bool := decide (currentSlideIndex < slides.length - 1)
  { prevDisabled := !canGoBack, restartDisabled := !canGoBack, nextDisabled := !canGoNext }

/-- The state right after the map `load` handler ran on a fresh instance:
the constructor starts at index 0, not animating, and the handler does
`createAllLines(); createAllMarkers(); updateSlide()`. -/
def initialState (cfg : Config) (slides : List Slide) : StoryMapState :=
  updateSlide cfg slides Direction.none
    { currentSlideIndex := 0, isAnimating := false,
      markers := createAllMarkers slides 0,
      lines := createAllLines cfg.styling slides }

/-- Reachable states of an initialized story map: the post-load state followed by
any sequence of user navigations (buttons, keyboard, marker clicks, `goToSlide`)
and animation-timer completions. `initializeMap` refuses to start without a
valid (hence existing) slide, so an initialized story is non-empty. -/
inductive Reachable (cfg : Config) (slides : List Slide) : StoryMapState → Prop where
  | init : 0 < slides.length → Reachable cfg slides (initialState cfg slides)
  | prevStep {s} : Reachable cfg slides s → Reachable cfg slides (navigatePrevious cfg slides s)
  | nextStep {s} : Reachable cfg slides s → Reachable cfg slides (navigateNext cfg slides s)
  | restartStep {s} : Reachable cfg slides s → Reachable cfg slides (restart cfg slides s)
  | goToStep {s} (t : Int) : Reachable cfg slides s → Reachable cfg slides (navigateToSlide cfg slides t s)
  | clickStep {s} (i : Nat) : Reachable cfg slides s → Reachable cfg slides (markerClick cfg slides i s)
  | keyLeftStep {s} : Reachable cfg slides s → Reachable cfg slides (keydownArrowLeft cfg slides s)
  | keyRightStep {s} : Reachable cfg slides s → Reachable cfg slides (keydownArrowRight cfg slides s)
  | animDoneStep {s} : Reachable cfg slides s → Reachable cfg slides (animationComplete s)

/-! ## Language Switch Coordinator (`multilingual-provider.js`) -/

/-- One entry of `fullData.languages` (name/title/nav labels feed only the DOM). -/
structure LanguageEntry where
  name : String
  title : Option String
deriving DecidableEq, Repr

/-- The multilingual JSON: `languages` keyed by language code, and `storymaps`
mapping each code to its `storymap.slides`. -/
structure MultilingualData where
  languages : List (String × LanguageEntry)
  storymaps : List (String × List Slide)
deriving DecidableEq, Repr

/-- `MultilingualDataProvider.switchLanguage(newLanguage)`: `null` (with a
warning) unless `fullData.languages[newLanguage]` and
`fullData.storymaps[newLanguage]` both exist; otherwise it installs and returns
the new language's slides (title/nav-label updates touch only the DOM). -/
def providerSwitchLanguage (fullData : MultilingualData) (newLanguage : String) :
    Option (List Slide) :=
  match fullData.languages.lookup newLanguage, fullData.storymaps.lookup newLanguage with
  | some _, some slides => some slides
  | _, _ => none

/-- `MultilingualDataProvider.switchLanguageWithPosition(newLanguage,
currentSlideIndex, {maintainSlidePosition})`: after a successful
`switchLanguage`, either resets to slide 0, or keeps `currentSlideIndex`,
pulled back to the last slide when it lies beyond the new sequence and raised
to 0 when negative. Returns the new slides with the target index. -/
def switchLanguageWithPosition (fullData : MultilingualData) (newLanguage : String)
    (currentSlideIndex : Int) (maintainSlidePosition : Bool) :
    Option (List Slide × Int) :=
  match providerSwitchLanguage fullData newLanguage with
  | none => none
  | some newSlides =>
    if maintainSlidePosition = false then some (newSlides, 0)
    else
      let t0 : Int := currentSlideIndex
      let t1 : Int :=
        if (newSlides.length : Int) ≤ currentSlideIndex then (newSlides.length : Int) - 1 else t0
      let t2 : Int := if t1 < 0 then 0 else t1
      some (newSlides, t2)

/-- Modelled from the spec: the ratio-based index remap of §4.5 / Scenario C,
`clamp(floor((oldIndex / oldLength) * newLength), 0, newLength - 1)` (for
`0 ≤ oldIndex < oldLength` the lower clamp is inert and the floor over exact
arithmetic is natural division). This is the value the claim asserts for every
language switch. -/
def specRatioRemapIndex (oldIndex oldLength newLength : Nat) : Nat :=
  min (oldIndex * newLength / oldLength) (newLength - 1)

/-! ## Initialization and data loading (`initialize` / `loadStoryData`) -/

/-- Outcome of the data-loading step: the slides, or a raised error (rejected
fetch, malformed schema, or the explicit `No data source provided` throw). -/
inductive LoadOutcome where
  | ok (slides : List Slide)
  | failed (msg : String)
deriving DecidableEq, Repr

/-- The data-source part of the constructor config, with the outcome the
environment gives that source: a custom `dataLoader` (whose promise may
reject), a `jsonUrl` (whose fetch/parse may reject), or neither. -/
inductive DataSourceConfig where
  | dataLoader (result : LoadOutcome)
  | jsonUrl (result : LoadOutcome)
  | noSource
deriving DecidableEq, Repr

/-- `loadStoryData`: await the custom loader, else fetch the JSON, else throw
`No data source provided. Please specify jsonUrl or dataLoader.`. -/
def loadStoryData : DataSourceConfig → LoadOutcome
  | .dataLoader r => r
  | .jsonUrl r => r
  | .noSource => .failed "No data source provided. Please specify jsonUrl or dataLoader."

/-- How `initialize()` finishes, as observed by the hosting page. The
`errorPropagated` outcome is what the claim asserts for a failed load: the
rejection escaping the core. `errorCaught` is a normal return after the
`catch (error) { console.error(...) }` block — nothing escapes and nothing
is rendered. -/
inductive InitOutcome where
  | initialized (storyData : List Slide)
  | errorCaught (msg : String)
  | errorPropagated (msg : String)
deriving DecidableEq, Repr

/-- Does the outcome surface to the hosting page as a raised failure? -/
def InitOutcome.propagatesFailure : InitOutcome → Bool
  | .errorPropagated _ => true
  | _ => false

/-- The slide sequence the instance goes on to render, if any. -/
def InitOutcome.renderedStoryData : InitOutcome → Option (List Slide)
  | .initialized slides => some slides
  | _ => none

/-- `async initialize()`: `try { await loadStoryData(); initializeMap(); ... }
catch (error) { console.error('StoryMap initialization failed:', error) }` —
every load failure lands in the catch block and the method returns normally;
on success the instance proceeds with the loaded slides. -/
def initStoryMap (src : DataSourceConfig) : InitOutcome :=
  match loadStoryData src with
  | .failed e => .errorCaught e
  | .ok slides => .initialized slides

/-! ## Invariants of the marker layers -/

/-- Well-formedness of the two marker sources relative to a current slide index:
the active source holds exactly the current slide's feature when its location is
valid (and is empty otherwise), and the inactive source holds exactly the
remaining valid slide indices, each once. -/
def MarkerPartitionWF (slides : List Slide) (currentSlideIndex : Nat)
    (m : MarkerLayers) : Prop :=
  activeIndices m =
    (if validIdx slides currentSlideIndex then [currentSlideIndex] else []) ∧
  (∀ i, i ∈ inactiveIndices m ↔
    (validIdx slides i = true ∧ i ∉ activeIndices m)) ∧
  (inactiveIndices m).Nodup

/-- Navigator-level well-formedness: the current index is in range and the
marker layers are well-formed for it. -/
def NavigatorWF (slides : List Slide) (s : StoryMapState) : Prop :=
  s.currentSlideIndex < slides.length ∧
  MarkerPartitionWF slides s.currentSlideIndex s.markers

/-! ## Concrete instances used to evaluate the theorems on closed inputs -/

/-- A location with numeric, finite coordinates. -/
def sampleLoc : Location :=
  { lat := JSVal.num (.finite 1), lon := JSVal.num (.finite 2), line := some true }

/-- A second valid location without a `line` request. -/
def sampleLoc2 : Location :=
  { lat := JSVal.num (.finite 3), lon := JSVal.num (.finite 4), line := none }

/-- A location whose latitude string `parseFloat`s to `Infinity`. -/
def locInfinity : Location :=
  { lat := JSVal.str "Infinity", lon := JSVal.num (.finite 0), line := none }

/-- Three slides: two valid (slide 0 requesting a line), one without a location. -/
def sampleSlides : List Slide :=
  [{ location := some sampleLoc }, { location := some sampleLoc2 }, { location := none }]

def sampleStyling : Styling := { lineColor := "#000000", lineColorActive := "#ff0000" }

def sampleConfig : Config :=
  { features := { animations := true, keyboardNavigation := true }, styling := sampleStyling }

/-- A post-load state of `sampleSlides` frozen mid-animation at slide 1. -/
def busyState : StoryMapState :=
  { currentSlideIndex := 1, isAnimating := true,
    markers := createAllMarkers sampleSlides 1,
    lines := createAllLines sampleStyling sampleSlides }

/-- The same state with no animation in flight. -/
def idleState : StoryMapState :=
  { currentSlideIndex := 1, isAnimating := false,
    markers := createAllMarkers sampleSlides 1,
    lines := createAllLines sampleStyling sampleSlides }

/-- A marker-layer state whose active source holds slide 3's feature. -/
def featureThree : MarkerFeature :=
  { slideIndex := 3, isActive := true, coordinates := (.finite 2, .finite 1) }

def activeThreeLayers : MarkerLayers :=
  { inactive := [], active := [featureThree] }

def blankSlide : Slide := { location := none }

/-- A catalog with a 10-slide `en` story and a 5-slide `es` story. -/
def catalogEn10Es5 : MultilingualData :=
  { languages := [("en", { name := "English", title := none }),
                  ("es", { name := "Espanol", title := none })],
    storymaps := [("en", List.replicate 10 blankSlide),
                  ("es", List.replicate 5 blankSlide)] }

/-! ## Helper lemmas -/

lemma parseFloat_null_isNaN : (parseFloat JSVal.null).isNaN = true := by decide

lemma parseFloat_undefined_isNaN : (parseFloat JSVal.undefined).isNaN = true := by decide

lemma moveMarkerToInactive_nil (m : MarkerLayers) (i : Nat) (hA : m.active = []) :
    moveMarkerToInactive m i = m := by
  unfold moveMarkerToInactive
  rw [hA]

lemma moveMarkerToInactive_cons (m : MarkerLayers) (i : Nat) (f : MarkerFeature)
    (rest : List MarkerFeature) (hA : m.active = f :: rest) :
    moveMarkerToInactive m i =
      { inactive := m.inactive ++ [{ f with isActive := false }], active := [] } := by
  unfold moveMarkerToInactive
  rw [hA]

/-! ## C5 — `isValidLocation` -/

/-- C5 (counterexample): the claim says `isValidLocation` returns `false` whenever a
coordinate parses to an infinite value, but the source only tests `!isNaN(parseFloat(·))`:
a location whose `lat` is the string `"Infinity"` parses to `+Infinity` (not finite)
yet is accepted as valid. -/
theorem isValidLocation_infinity_counterexample :
    isValidLocation (some locInfinity) = true ∧
    parseFloat locInfinity.lat = JSNumber.posInf ∧
    (parseFloat locInfinity.lat).isFiniteNum = false := by decide

/-- C5 (amended): `isValidLocation(loc)` is `true` iff `loc` is present and both
`lat` and `lon` parse to numeric (non-`NaN`) values — finite **or infinite**.
The explicit `!== null` / `!== undefined` guards of the source are subsumed by
the `NaN` test, since `parseFloat(null)` and `parseFloat(undefined)` are `NaN`. -/
theorem isValidLocation_characterization (location : Option Location) :
    isValidLocation location = true ↔
      ∃ loc, location = some loc ∧ (parseFloat loc.lat).isNaN = false ∧
        (parseFloat loc.lon).isNaN = false := by
  cases location with
  | none => simp [isValidLocation]
  | some loc =>
    simp only [isValidLocation, Bool.and_eq_true, bne_iff_ne, ne_eq,
      Bool.not_eq_true', Option.some.injEq]
    constructor
    · rintro ⟨⟨⟨⟨⟨h1, h2⟩, h3⟩, h4⟩, h5⟩, h6⟩
      exact ⟨loc, rfl, h3, h6⟩
    · rintro ⟨loc2, rfl, hlat, hlon⟩
      refine ⟨⟨⟨⟨⟨?_, ?_⟩, hlat⟩, ?_⟩, ?_⟩, hlon⟩
      · intro hEq
        rw [hEq, parseFloat_null_isNaN] at hlat
        exact absurd hlat (by decide)
      · intro hEq
        rw [hEq, parseFloat_undefined_isNaN] at hlat
        exact absurd hlat (by decide)
      · intro hEq
        rw [hEq, parseFloat_null_isNaN] at hlon
        exact absurd hlon (by decide)
      · intro hEq
        rw [hEq, parseFloat_undefined_isNaN] at hlon
        exact absurd hlon (by decide)

/-! ## C2 — navigation requests during an animated transition -/

/-- C2: while `isAnimating` is `true`, every navigation entry point — previous,
next, restart, `goToSlide`/`navigateToSlide` for any target, marker clicks and
both keyboard arrows — returns the state unchanged: the request is silently
dropped (the model is a total function, so nothing is raised, and the state
carries no queue for it to be added to). -/
theorem busy_navigation_dropped (cfg : Config) (slides : List Slide)
    (s : StoryMapState) (h : s.isAnimating = true) :
    navigatePrevious cfg slides s = s ∧ navigateNext cfg slides s = s ∧
    restart cfg slides s = s ∧
    (∀ targetIndex : Int, navigateToSlide cfg slides targetIndex s = s) ∧
    (∀ clickedIndex : Nat, markerClick cfg slides clickedIndex s = s) ∧
    keydownArrowLeft cfg slides s = s ∧ keydownArrowRight cfg slides s = s := by
  refine ⟨?_, ?_, ?_, fun t => ?_, fun i => ?_, ?_, ?_⟩ <;>
    simp [navigatePrevious, navigateNext, restart, navigateToSlide, markerClick,
      keydownArrowLeft, keydownArrowRight, h]

/-- C2 (witness): evaluated on a concrete mid-animation state. -/
theorem busy_navigation_dropped_witness :
    navigatePrevious sampleConfig sampleSlides busyState = busyState ∧
    navigateNext sampleConfig sampleSlides busyState = busyState ∧
    restart sampleConfig sampleSlides busyState = busyState ∧
    navigateToSlide sampleConfig sampleSlides (-1) busyState = busyState ∧
    markerClick sampleConfig sampleSlides 0 busyState = busyState ∧
    keydownArrowLeft sampleConfig sampleSlides busyState = busyState ∧
    keydownArrowRight sampleConfig sampleSlides busyState = busyState := by
  obtain ⟨h1, h2, h3, h4, h5, h6, h7⟩ :=
    busy_navigation_dropped sampleConfig sampleSlides busyState rfl
  exact ⟨h1, h2, h3, h4 (-1), h5 0, h6, h7⟩

/-! ## C6 — `moveMarkerToInactive` (`deactivate`) -/

/-- C6 (counterexample): the claim says `deactivate(index)` is a no-op when `index`
is not the active member. With slide 3's marker active, `moveMarkerToInactive(5)`
nevertheless demotes marker 3: the state changes, the active source empties and
marker 3 lands in the inactive source. -/
theorem deactivate_wrong_index_counterexample :
    moveMarkerToInactive activeThreeLayers 5 ≠ activeThreeLayers ∧
    activeIndices (moveMarkerToInactive activeThreeLayers 5) = [] ∧
    inactiveIndices (moveMarkerToInactive activeThreeLayers 5) = [3] := by decide

/-- C6 (amended): `moveMarkerToInactive` never reads its `slideIndex` argument.
It is a no-op exactly when the active source is empty; otherwise — whatever index
is passed — it clears the active source and appends its sole member, demoted, to
the inactive source. (In every reachable call site the argument happens to be the
active member's index, where this coincides with the claimed behaviour.) -/
theorem deactivate_ignores_argument (m : MarkerLayers) (i j : Nat) :
    moveMarkerToInactive m i = moveMarkerToInactive m j ∧
    (moveMarkerToInactive m i = m ↔ m.active = []) ∧
    (∀ f rest, m.active = f :: rest →
      activeIndices (moveMarkerToInactive m i) = [] ∧
      inactiveIndices (moveMarkerToInactive m i) =
        inactiveIndices m ++ [f.slideIndex]) := by
  refine ⟨rfl, ?_, ?_⟩
  · constructor
    · intro hEq
      cases hA : m.active with
      | nil => rfl
      | cons f rest =>
        exfalso
        rw [moveMarkerToInactive_cons m i f rest hA] at hEq
        have hlen := congrArg (fun layers => layers.inactive.length) hEq
        simp at hlen
    · intro hA
      exact moveMarkerToInactive_nil m i hA
  · intro f rest hA
    rw [moveMarkerToInactive_cons m i f rest hA]
    simp [activeIndices, inactiveIndices]

/-- C6 (witness): concrete evaluation with slide 3's marker active. -/
theorem deactivate_ignores_argument_witness :
    moveMarkerToInactive activeThreeLayers 1 = moveMarkerToInactive activeThreeLayers 2 ∧
    (moveMarkerToInactive activeThreeLayers 1 = activeThreeLayers ↔
      activeThreeLayers.active = []) ∧
    (activeIndices (moveMarkerToInactive activeThreeLayers 1) = [] ∧
     inactiveIndices (moveMarkerToInactive activeThreeLayers 1) =
       inactiveIndices activeThreeLayers ++ [featureThree.slideIndex]) := by
  obtain ⟨h1, h2, h3⟩ := deactivate_ignores_argument activeThreeLayers 1 2
  exact ⟨h1, h2, h3 featureThree [] rfl⟩

/-! ## C7 — boundary navigation and button gating -/

/-- C7: `navigateToSlide(-1)` and `navigateToSlide(length)` fail the range guard
and leave the whole state unchanged; `updateButtonStates` disables previous and
restart exactly at index 0, and next exactly at the last index. -/
theorem boundary_noop_and_button_gating (cfg : Config) (slides : List Slide)
    (s : StoryMapState) (h : s.currentSlideIndex < slides.length) :
    navigateToSlide cfg slides (-1) s = s ∧
    navigateToSlide cfg slides (slides.length : Int) s = s ∧
    ((updateButtonStates slides s.currentSlideIndex).prevDisabled = true ↔
      s.currentSlideIndex = 0) ∧
    ((updateButtonStates slides s.currentSlideIndex).restartDisabled = true ↔
      s.currentSlideIndex = 0) ∧
    ((updateButtonStates slides s.currentSlideIndex).nextDisabled = true ↔
      s.currentSlideIndex = slides.length - 1) := by
  refine ⟨?_, ?_, ?_, ?_, ?_⟩
  · simp [navigateToSlide]
  · simp [navigateToSlide]
  · simp only [updateButtonStates, Bool.not_eq_true', decide_eq_false_iff_not,
      not_lt, Nat.le_zero]
  · simp only [updateButtonStates, Bool.not_eq_true', decide_eq_false_iff_not,
      not_lt, Nat.le_zero]
  · simp only [updateButtonStates, Bool.not_eq_true', decide_eq_false_iff_not, not_lt]
    omega

/-- C7 (witness): evaluated at index 1 of the three sample slides. -/
theorem boundary_noop_and_button_gating_witness :
    navigateToSlide sampleConfig sampleSlides (-1) idleState = idleState ∧
    navigateToSlide sampleConfig sampleSlides ((sampleSlides.length : Int)) idleState = idleState ∧
    ((updateButtonStates sampleSlides idleState.currentSlideIndex).prevDisabled = true ↔
      idleState.currentSlideIndex = 0) ∧
    ((updateButtonStates sampleSlides idleState.currentSlideIndex).restartDisabled = true ↔
      idleState.currentSlideIndex = 0) ∧
    ((updateButtonStates sampleSlides idleState.currentSlideIndex).nextDisabled = true ↔
      idleState.currentSlideIndex = sampleSlides.length - 1) :=
  boundary_noop_and_button_gating sampleConfig sampleSlides idleState (by decide)

/-! ## C4 — initialization failure handling -/

/-- C4 (counterexample): the claim says a failed initial data load propagates out
of the core. With no data source configured, `loadStoryData` throws, but
`initialize` lands in its own `catch` block: the method returns normally with the
error merely logged — nothing propagates to the hosting page. -/
theorem init_failure_not_propagated_counterexample :
    (initStoryMap DataSourceConfig.noSource).propagatesFailure = false ∧
    initStoryMap DataSourceConfig.noSource =
      InitOutcome.errorCaught
        "No data source provided. Please specify jsonUrl or dataLoader." := by
  exact ⟨rfl, rfl⟩

/-- C4 (amended): every load failure (loader rejection, fetch rejection, missing
source) is caught inside `initialize` and logged via `console.error`; the failure
does **not** propagate to the hosting page, and no (even partially populated)
slide sequence is rendered. -/
theorem init_failure_caught_and_nothing_rendered (src : DataSourceConfig)
    (msg : String) (h : loadStoryData src = LoadOutcome.failed msg) :
    initStoryMap src = InitOutcome.errorCaught msg ∧
    (initStoryMap src).propagatesFailure = false ∧
    (initStoryMap src).renderedStoryData = none := by
  unfold initStoryMap
  rw [h]
  exact ⟨rfl, rfl, rfl⟩

/-- C4 (witness): the missing-data-source failure, evaluated concretely. -/
theorem init_failure_caught_witness :
    initStoryMap DataSourceConfig.noSource =
      InitOutcome.errorCaught
        "No data source provided. Please specify jsonUrl or dataLoader." ∧
    (initStoryMap DataSourceConfig.noSource).propagatesFailure = false ∧
    (initStoryMap DataSourceConfig.noSource).renderedStoryData = none :=
  init_failure_caught_and_nothing_rendered DataSourceConfig.noSource
    "No data source provided. Please specify jsonUrl or dataLoader." rfl

/-! ## C3 — language switch index remapping -/

/-- C3 (counterexample): at index 4 of the 10-slide `en` story, switching to the
5-slide `es` story through the library's `switchLanguageWithPosition` yields
index 4 — the old position is kept, merely clamped into range — not the
ratio-remapped `clamp(floor((4/10)*5), 0, 4) = 2` the claim asserts for every
language switch. -/
theorem switch_language_ratio_counterexample :
    switchLanguageWithPosition catalogEn10Es5 "es" 4 true
      = some (List.replicate 5 blankSlide, 4) ∧
    specRatioRemapIndex 4 10 5 = 2 ∧ ((4 : Int) ≠ (2 : Int)) := by decide

/-- C3 (amended): `switchLanguageWithPosition` with position maintenance (the
default) does not remap by ratio: for a valid target language with a non-empty
sequence and a non-negative old index `i`, the resulting index is
`clamp(i, 0, L' - 1) = min i (L' - 1)`. (The inline example's `switchLanguage`
in data-providers.js is the code path that uses the ratio formula, computed in
IEEE floating point, which is outside this model.) -/
theorem switch_language_position_clamped (fullData : MultilingualData)
    (newLanguage : String) (newSlides : List Slide) (i : Int)
    (h : providerSwitchLanguage fullData newLanguage = some newSlides)
    (hlen : 0 < newSlides.length) (h0 : 0 ≤ i) :
    switchLanguageWithPosition fullData newLanguage i true
      = some (newSlides, min i ((newSlides.length : Int) - 1)) := by
  simp only [switchLanguageWithPosition, h]
  rw [if_neg (show ¬(true = false) by decide)]
  simp only [Option.some.injEq, Prod.mk.injEq, true_and]
  rcases le_or_lt (newSlides.length : Int) i with hc | hc
  · rw [if_pos hc, if_neg (by omega), min_eq_right (by omega)]
  · rw [if_neg (not_le.mpr hc), if_neg (by omega), min_eq_left (by omega)]

/-- C3 (witness): the Scenario C inputs, evaluated on the amended statement. -/
theorem switch_language_position_clamped_witness :
    switchLanguageWithPosition catalogEn10Es5 "es" 4 true
      = some (List.replicate 5 blankSlide,
          min 4 (((List.replicate 5 blankSlide).length : Int) - 1)) :=
  switch_language_position_clamped catalogEn10Es5 "es"
    (List.replicate 5 blankSlide) 4 (by decide) (by decide) (by decide)

/-! ## C10 — direction-`none` navigations never animate -/

lemma updateContent_none (cfg : Config) (s : StoryMapState) :
    updateContent cfg Direction.none s = s := by
  simp [updateContent]

lemma updateSlide_none_isAnimating (cfg : Config) (slides : List Slide)
    (s : StoryMapState) :
    (updateSlide cfg slides Direction.none s).isAnimating = s.isAnimating := by
  unfold updateSlide
  cases hg : slides.get? s.currentSlideIndex with
  | none => rfl
  | some sl => simp [updateContent_none]

lemma applyNoneNav_isAnimating (cfg : Config) (slides : List Slide)
    (r : NoneNavRequest) (s : StoryMapState) (h : s.isAnimating = false) :
    (applyNoneNav cfg slides r s).isAnimating = false := by
  cases r with
  | goTo t =>
    show (navigateToSlide cfg slides t s).isAnimating = false
    unfold navigateToSlide
    split
    · rw [updateSlide_none_isAnimating]; exact h
    · exact h
  | restartButton =>
    show (restart cfg slides s).isAnimating = false
    unfold restart
    rw [if_pos h, updateSlide_none_isAnimating]
    exact h
  | click i =>
    show (markerClick cfg slides i s).isAnimating = false
    unfold markerClick
    split
    · unfold navigateToSlide
      split
      · rw [updateSlide_none_isAnimating]; exact h
      · exact h
    · exact h

lemma foldNoneNav_isAnimating (cfg : Config) (slides : List Slide)
    (reqs : List NoneNavRequest) :
    ∀ s : StoryMapState, s.isAnimating = false →
      (reqs.foldl (fun st r => applyNoneNav cfg slides r st) s).isAnimating = false := by
  induction reqs with
  | nil => intro s h; exact h
  | cons r rest ih =>
    intro s h
    exact ih _ (applyNoneNav_isAnimating cfg slides r s h)

lemma updateSlide_isAnimating_true (cfg : Config) (slides : List Slide)
    (d : Direction) (s : StoryMapState)
    (h : (updateSlide cfg slides d s).isAnimating = true) :
    s.isAnimating = true ∨ (d ≠ Direction.none ∧ cfg.features.animations = true) := by
  unfold updateSlide at h
  split at h
  · exact Or.inl h
  · unfold updateContent at h
    split at h
    next hc => exact Or.inr ⟨hc.1, hc.2.1⟩
    next => exact Or.inl h

/-- C10: a direction-`none` navigation never sets `isAnimating`: `updateSlide`
with direction `none` leaves the flag untouched, any sequence of `goToSlide` /
restart / marker-click requests keeps an idle navigator idle (so each of them
passes the `!isAnimating` guard and is accepted), and a directional navigation
can acquire the lock from an idle state only when `features.animations` is on. -/
theorem none_direction_never_locks (cfg : Config) (slides : List Slide)
    (s : StoryMapState) (reqs : List NoneNavRequest) (h : s.isAnimating = false) :
    (∀ s2 : StoryMapState,
      (updateSlide cfg slides Direction.none s2).isAnimating = s2.isAnimating) ∧
    (reqs.foldl (fun st r => applyNoneNav cfg slides r st) s).isAnimating = false ∧
    (∀ s2 : StoryMapState, s2.isAnimating = false →
      ((navigateNext cfg slides s2).isAnimating = true →
        cfg.features.animations = true) ∧
      ((navigatePrevious cfg slides s2).isAnimating = true →
        cfg.features.animations = true)) := by
  refine ⟨fun s2 => updateSlide_none_isAnimating cfg slides s2,
    foldNoneNav_isAnimating cfg slides reqs s h, ?_⟩
  intro s2 h2
  constructor
  · intro hn
    unfold navigateNext at hn
    split at hn
    · rcases updateSlide_isAnimating_true cfg slides Direction.next _ hn with hl | hr
      · have hl2 : s2.isAnimating = true := hl
        rw [h2] at hl2
        exact absurd hl2 (by decide)
      · exact hr.2
    · rw [h2] at hn
      exact absurd hn (by decide)
  · intro hn
    unfold navigatePrevious at hn
    split at hn
    · rcases updateSlide_isAnimating_true cfg slides Direction.prev _ hn with hl | hr
      · have hl2 : s2.isAnimating = true := hl
        rw [h2] at hl2
        exact absurd hl2 (by decide)
      · exact hr.2
    · rw [h2] at hn
      exact absurd hn (by decide)

/-- C10 (witness): a concrete run of three direction-`none` requests from an
idle state stays idle. -/
theorem none_direction_never_locks_witness :
    (updateSlide sampleConfig sampleSlides Direction.none idleState).isAnimating =
      idleState.isAnimating ∧
    (([NoneNavRequest.goTo 0, NoneNavRequest.restartButton, NoneNavRequest.click 2].foldl
        (fun st r => applyNoneNav sampleConfig sampleSlides r st) idleState).isAnimating =
      false) ∧
    ((navigateNext sampleConfig sampleSlides idleState).isAnimating = true →
      sampleConfig.features.animations = true) := by
  obtain ⟨h1, h2, h3⟩ := none_direction_never_locks sampleConfig sampleSlides idleState
    [NoneNavRequest.goTo 0, NoneNavRequest.restartButton, NoneNavRequest.click 2] rfl
  exact ⟨h1 idleState, h2, (h3 idleState rfl).1⟩

/-! ## Marker layer machinery (towards C1 and C9) -/

lemma extractFirst_spec (i : Nat) (l : List MarkerFeature) :
    (extractFirst i l = none ∧ i ∉ l.map (·.slideIndex)) ∨
    (∃ f l2, extractFirst i l = some (f, l2) ∧ f.slideIndex = i ∧
      l.Perm (f :: l2)) := by
  induction l with
  | nil => left; exact ⟨rfl, by simp⟩
  | cons g rest ih =>
    by_cases hg : g.slideIndex = i
    · right
      refine ⟨g, rest, ?_, hg, List.Perm.refl _⟩
      simp [extractFirst, hg]
    · rcases ih with ⟨hE, hmem⟩ | ⟨f, l2, hE, hfi, hperm⟩
      · left
        constructor
        · simp [extractFirst, hg, hE]
        · simp only [List.map_cons, List.mem_cons, not_or]
          exact ⟨fun hEq => hg hEq.symm, hmem⟩
      · right
        refine ⟨f, g :: l2, ?_, hfi, ?_⟩
        · simp [extractFirst, hg, hE]
        · exact List.Perm.trans (hperm.cons g) (List.Perm.swap f g l2)

lemma moveMarkerToActive_of_mem (m : MarkerLayers) (j : Nat)
    (hmem : j ∈ inactiveIndices m) :
    ∃ f rest, f.slideIndex = j ∧ m.inactive.Perm (f :: rest) ∧
      moveMarkerToActive m j =
        { active := [{ f with isActive := true }], inactive := rest } := by
  rcases extractFirst_spec j m.inactive with ⟨hE, hmem2⟩ | ⟨f, rest, hE, hfi, hperm⟩
  · exact absurd hmem hmem2
  · refine ⟨f, rest, hfi, hperm, ?_⟩
    unfold moveMarkerToActive
    rw [hE]

lemma markerWF_build (slides : List Slide) (j : Nat) (f : MarkerFeature)
    (rest : List MarkerFeature) (hfi : f.slideIndex = j)
    (hv : validIdx slides j = true)
    (hval : ∀ i, validIdx slides i = true ↔ (i = j ∨ i ∈ rest.map (·.slideIndex)))
    (hjnot : j ∉ rest.map (·.slideIndex))
    (hndrest : (rest.map (·.slideIndex)).Nodup) :
    MarkerPartitionWF slides j
      { active := [{ f with isActive := true }], inactive := rest } := by
  refine ⟨?_, ?_, hndrest⟩
  · simp [activeIndices, hfi, hv]
  · intro i
    show i ∈ rest.map (·.slideIndex) ↔
      validIdx slides i = true ∧ i ∉ [({ f with isActive := true } : MarkerFeature).slideIndex]
    rw [show ({ f with isActive := true } : MarkerFeature).slideIndex = j from hfi]
    simp only [List.mem_singleton]
    constructor
    · intro hi
      exact ⟨(hval i).mpr (Or.inr hi), fun hij => hjnot (hij ▸ hi)⟩
    · rintro ⟨hvi, hij⟩
      rcases (hval i).mp hvi with hEq | hmem2
      · exact absurd hEq hij
      · exact hmem2

lemma activate_wf (slides : List Slide) (m : MarkerLayers) (j : Nat)
    (hact : activeIndices m = [])
    (hmem : ∀ i, i ∈ inactiveIndices m ↔ validIdx slides i = true)
    (hnd : (inactiveIndices m).Nodup) :
    MarkerPartitionWF slides j
      (if validIdx slides j then moveMarkerToActive m j else m) := by
  by_cases hv : validIdx slides j = true
  · rw [if_pos hv]
    obtain ⟨f, rest, hfi, hperm, hEq⟩ := moveMarkerToActive_of_mem m j ((hmem j).mpr hv)
    rw [hEq]
    have hpermIdx : (inactiveIndices m).Perm (j :: rest.map (·.slideIndex)) := by
      have h2 := hperm.map (·.slideIndex)
      rw [List.map_cons, hfi] at h2
      exact h2
    have hnd2 : (j :: rest.map (·.slideIndex)).Nodup := hpermIdx.nodup_iff.mp hnd
    apply markerWF_build slides j f rest hfi hv
    · intro i
      rw [← hmem i, hpermIdx.mem_iff, List.mem_cons]
    · exact (List.nodup_cons.mp hnd2).1
    · exact (List.nodup_cons.mp hnd2).2
  · rw [if_neg (by simpa using hv)]
    have hvf : validIdx slides j = false := by simpa using hv
    refine ⟨?_, ?_, hnd⟩
    · rw [hact, hvf]
      simp
    · intro i
      rw [hmem i, hact]
      simp

lemma updateMarkerColors_wf (slides : List Slide) (cur j : Nat) (m : MarkerLayers)
    (h : MarkerPartitionWF slides cur m) :
    MarkerPartitionWF slides j (updateMarkerColors slides j m) := by
  obtain ⟨hact, hmem, hnd⟩ := h
  by_cases hv : validIdx slides cur = true
  · rw [if_pos hv] at hact
    obtain ⟨f, hfeq, hfi⟩ : ∃ f, m.active = [f] ∧ f.slideIndex = cur := by
      have hact2 : m.active.map (·.slideIndex) = [cur] := hact
      cases hA : m.active with
      | nil => rw [hA] at hact2; simp at hact2
      | cons g rest =>
        rw [hA] at hact2
        simp only [List.map_cons, List.cons.injEq] at hact2
        obtain ⟨hg, hrest⟩ := hact2
        rw [List.map_eq_nil_iff] at hrest
        subst hrest
        exact ⟨g, rfl, hg⟩
    have hprev : getPreviouslyActiveMarkerIndex m = some cur := by
      simp [getPreviouslyActiveMarkerIndex, hfeq, hfi]
    by_cases hj : cur = j
    · subst hj
      have hId : updateMarkerColors slides cur m = m := by
        simp [updateMarkerColors, hprev]
      rw [hId]
      exact ⟨by rw [if_pos hv]; exact hact, hmem, hnd⟩
    · have hstep : updateMarkerColors slides j m =
          (if validIdx slides j then
            moveMarkerToActive (moveMarkerToInactive m cur) j
          else moveMarkerToInactive m cur) := by
        simp [updateMarkerColors, hprev, hj]
      have hm1 : moveMarkerToInactive m cur =
          { inactive := m.inactive ++ [{ f with isActive := false }], active := [] } :=
        moveMarkerToInactive_cons m cur f [] hfeq
      have hcurnot : cur ∉ inactiveIndices m := by
        intro hc
        have h2 := ((hmem cur).mp hc).2
        rw [hact] at h2
        simp at h2
      rw [hstep, hm1]
      apply activate_wf
      · rfl
      · intro i
        simp only [inactiveIndices]
        rw [List.map_append]
        simp only [List.map_cons, List.map_nil, List.mem_append, List.mem_singleton]
        rw [show ({ f with isActive := false } : MarkerFeature).slideIndex = cur from hfi]
        constructor
        · rintro (hi | rfl)
          · exact ((hmem i).mp hi).1
          · exact hv
        · intro hvi
          by_cases hic : i = cur
          · exact Or.inr hic
          · refine Or.inl ((hmem i).mpr ⟨hvi, ?_⟩)
            rw [hact]
            simp [hic]
      · simp only [inactiveIndices]
        rw [List.map_append]
        simp only [List.map_cons, List.map_nil]
        rw [show ({ f with isActive := false } : MarkerFeature).slideIndex = cur from hfi]
        rw [List.nodup_append]
        refine ⟨hnd, List.nodup_singleton cur, ?_⟩
        intro x hx hx2
        rw [List.mem_singleton] at hx2
        subst hx2
        exact hcurnot hx
  · have hvf : validIdx slides cur = false := by simpa using hv
    rw [hvf] at hact
    simp only [if_neg (by decide : ¬(false = true))] at hact
    have hA : m.active = [] := List.map_eq_nil_iff.mp hact
    have hprev : getPreviouslyActiveMarkerIndex m = none := by
      simp [getPreviouslyActiveMarkerIndex, hA]
    have hstep : updateMarkerColors slides j m =
        (if validIdx slides j then moveMarkerToActive m j else m) := by
      simp [updateMarkerColors, hprev]
    rw [hstep]
    apply activate_wf slides m j hact _ hnd
    intro i
    rw [hmem i, hact]
    simp

lemma inactiveFeatureForIndex_map (slides : List Slide) (i : Nat) :
    (inactiveFeatureForIndex slides i).map (·.slideIndex) =
      if validIdx slides i then some i else none := by
  unfold inactiveFeatureForIndex validIdx
  cases hg : slides.get? i with
  | none => simp
  | some slide =>
    by_cases hvl : isValidLocation slide.location = true
    · obtain ⟨loc, hl⟩ : ∃ loc, slide.location = some loc := by
        cases hl : slide.location with
        | none => rw [hl] at hvl; exact absurd hvl (by decide)
        | some loc => exact ⟨loc, rfl⟩
      simp [hvl, hl]
    · have hvf : isValidLocation slide.location = false := by simpa using hvl
      simp [hvf]

lemma filterMap_inactiveFeature_map (slides : List Slide) (L : List Nat) :
    (L.filterMap (inactiveFeatureForIndex slides)).map (·.slideIndex) =
      L.filter (fun i => validIdx slides i) := by
  induction L with
  | nil => rfl
  | cons a L ih =>
    rw [List.filterMap_cons, List.filter_cons]
    have h2 := inactiveFeatureForIndex_map slides a
    by_cases hv : validIdx slides a = true
    · rw [if_pos hv] at h2
      cases hE : inactiveFeatureForIndex slides a with
      | none => rw [hE] at h2; exact absurd h2 (by simp)
      | some f =>
        rw [hE] at h2
        have hfa : f.slideIndex = a := by simpa using h2
        rw [if_pos (by simpa using hv)]
        simp only [hE, List.map_cons, hfa, ih]
    · have hvf : validIdx slides a = false := by simpa using hv
      rw [hvf] at h2
      cases hE : inactiveFeatureForIndex slides a with
      | none =>
        rw [if_neg (by simp [hvf])]
        simp only [hE, ih]
      | some f => rw [hE] at h2; exact absurd h2 (by simp)

lemma createInactiveMarkers_indices (slides : List Slide) :
    (createInactiveMarkers slides).map (·.slideIndex) =
      (List.range slides.length).filter (fun i => validIdx slides i) :=
  filterMap_inactiveFeature_map slides (List.range slides.length)

lemma validIdx_lt (slides : List Slide) (i : Nat) (h : validIdx slides i = true) :
    i < slides.length := by
  by_contra hc
  have hnone : slides.get? i = none := List.get?_eq_none.mpr (by omega)
  unfold validIdx at h
  rw [hnone] at h
  exact absurd h (by decide)

lemma createAllMarkers_wf (slides : List Slide) (cur : Nat) :
    MarkerPartitionWF slides cur (createAllMarkers slides cur) := by
  unfold createAllMarkers
  apply activate_wf
  · rfl
  · intro i
    simp only [inactiveIndices]
    rw [createInactiveMarkers_indices]
    simp only [List.mem_filter, List.mem_range]
    constructor
    · rintro ⟨_, h⟩; exact h
    · intro h; exact ⟨validIdx_lt slides i h, h⟩
  · simp only [inactiveIndices]
    rw [createInactiveMarkers_indices]
    exact (List.nodup_range _).filter _

/-! ## Navigator-level invariant preservation -/

lemma updateContent_currentSlideIndex (cfg : Config) (d : Direction)
    (s : StoryMapState) :
    (updateContent cfg d s).currentSlideIndex = s.currentSlideIndex := by
  unfold updateContent animateSlideTransition
  split <;> rfl

lemma updateContent_markers (cfg : Config) (d : Direction) (s : StoryMapState) :
    (updateContent cfg d s).markers = s.markers := by
  unfold updateContent animateSlideTransition
  split <;> rfl

lemma updateContent_lines (cfg : Config) (d : Direction) (s : StoryMapState) :
    (updateContent cfg d s).lines = s.lines := by
  unfold updateContent animateSlideTransition
  split <;> rfl

lemma updateSlide_currentSlideIndex (cfg : Config) (slides : List Slide)
    (d : Direction) (s : StoryMapState) :
    (updateSlide cfg slides d s).currentSlideIndex = s.currentSlideIndex := by
  unfold updateSlide
  cases hg : slides.get? s.currentSlideIndex with
  | none => rfl
  | some sl => simp [updateContent_currentSlideIndex]

lemma updateSlide_markers_of_lt (cfg : Config) (slides : List Slide)
    (d : Direction) (s : StoryMapState) (hlt : s.currentSlideIndex < slides.length) :
    (updateSlide cfg slides d s).markers =
      updateMarkerColors slides s.currentSlideIndex s.markers := by
  unfold updateSlide
  cases hg : slides.get? s.currentSlideIndex with
  | none =>
    exfalso
    rw [List.get?_eq_none] at hg
    omega
  | some sl =>
    simp [updateContent_currentSlideIndex, updateContent_markers]

lemma updateSlide_wf (cfg : Config) (slides : List Slide) (d : Direction)
    (s : StoryMapState) (cur0 : Nat)
    (hm : MarkerPartitionWF slides cur0 s.markers)
    (hlt : s.currentSlideIndex < slides.length) :
    NavigatorWF slides (updateSlide cfg slides d s) := by
  constructor
  · rw [updateSlide_currentSlideIndex]; exact hlt
  · rw [updateSlide_currentSlideIndex, updateSlide_markers_of_lt cfg slides d s hlt]
    exact updateMarkerColors_wf slides cur0 s.currentSlideIndex s.markers hm

lemma navWF_navigatePrevious (cfg : Config) (slides : List Slide)
    (s : StoryMapState) (h : NavigatorWF slides s) :
    NavigatorWF slides (navigatePrevious cfg slides s) := by
  unfold navigatePrevious
  split
  · exact updateSlide_wf cfg slides Direction.prev
      { s with currentSlideIndex := s.currentSlideIndex - 1 } s.currentSlideIndex h.2
      (show s.currentSlideIndex - 1 < slides.length by have := h.1; omega)
  · exact h

lemma navWF_navigateNext (cfg : Config) (slides : List Slide)
    (s : StoryMapState) (h : NavigatorWF slides s) :
    NavigatorWF slides (navigateNext cfg slides s) := by
  unfold navigateNext
  split
  next hc =>
    exact updateSlide_wf cfg slides Direction.next
      { s with currentSlideIndex := s.currentSlideIndex + 1 } s.currentSlideIndex h.2
      (show s.currentSlideIndex + 1 < slides.length by have := hc.1; omega)
  next => exact h

lemma navWF_restart (cfg : Config) (slides : List Slide)
    (s : StoryMapState) (h : NavigatorWF slides s) :
    NavigatorWF slides (restart cfg slides s) := by
  unfold restart
  split
  · exact updateSlide_wf cfg slides Direction.none
      { s with currentSlideIndex := 0 } s.currentSlideIndex h.2
      (show (0 : Nat) < slides.length by have := h.1; omega)
  · exact h

lemma navWF_navigateToSlide (cfg : Config) (slides : List Slide) (t : Int)
    (s : StoryMapState) (h : NavigatorWF slides s) :
    NavigatorWF slides (navigateToSlide cfg slides t s) := by
  unfold navigateToSlide
  split
  next hc =>
    exact updateSlide_wf cfg slides Direction.none
      { s with currentSlideIndex := t.toNat } s.currentSlideIndex h.2
      (show t.toNat < slides.length by
        have h1 := hc.1
        have h2 := hc.2.1
        omega)
  next => exact h

lemma navWF_markerClick (cfg : Config) (slides : List Slide) (i : Nat)
    (s : StoryMapState) (h : NavigatorWF slides s) :
    NavigatorWF slides (markerClick cfg slides i s) := by
  unfold markerClick
  split
  · exact navWF_navigateToSlide cfg slides (i : Int) s h
  · exact h

lemma navWF_keydownArrowLeft (cfg : Config) (slides : List Slide)
    (s : StoryMapState) (h : NavigatorWF slides s) :
    NavigatorWF slides (keydownArrowLeft cfg slides s) := by
  unfold keydownArrowLeft
  split
  · exact navWF_navigatePrevious cfg slides s h
  · exact h

lemma navWF_keydownArrowRight (cfg : Config) (slides : List Slide)
    (s : StoryMapState) (h : NavigatorWF slides s) :
    NavigatorWF slides (keydownArrowRight cfg slides s) := by
  unfold keydownArrowRight
  split
  · exact navWF_navigateNext cfg slides s h
  · exact h

lemma navWF_animationComplete (slides : List Slide) (s : StoryMapState)
    (h : NavigatorWF slides s) :
    NavigatorWF slides (animationComplete s) :=
  ⟨h.1, h.2⟩

lemma navWF_initialState (cfg : Config) (slides : List Slide)
    (h0 : 0 < slides.length) :
    NavigatorWF slides (initialState cfg slides) := by
  unfold initialState
  apply updateSlide_wf cfg slides Direction.none _ 0
  · exact createAllMarkers_wf slides 0
  · exact h0

lemma reachable_wf (cfg : Config) (slides : List Slide) (s : StoryMapState)
    (h : Reachable cfg slides s) : NavigatorWF slides s := by
  induction h with
  | init h0 => exact navWF_initialState cfg slides h0
  | prevStep _ ih => exact navWF_navigatePrevious cfg slides _ ih
  | nextStep _ ih => exact navWF_navigateNext cfg slides _ ih
  | restartStep _ ih => exact navWF_restart cfg slides _ ih
  | goToStep t _ ih => exact navWF_navigateToSlide cfg slides t _ ih
  | clickStep i _ ih => exact navWF_markerClick cfg slides i _ ih
  | keyLeftStep _ ih => exact navWF_keydownArrowLeft cfg slides _ ih
  | keyRightStep _ ih => exact navWF_keydownArrowRight cfg slides _ ih
  | animDoneStep _ ih => exact navWF_animationComplete slides _ ih

/-! ## C1 — the marker-layer invariant on reachable states -/

/-- C1: in every reachable state (after initialization and any sequence of
navigations and animation completions) the active marker source has at most one
feature; it is non-empty exactly when the current slide's location is valid;
every slide index with a valid location lies in exactly one of the two sources;
and indices without valid locations lie in neither. -/
theorem marker_layers_invariant (cfg : Config) (slides : List Slide)
    (s : StoryMapState) (h : Reachable cfg slides s) :
    s.markers.active.length ≤ 1 ∧
    (s.markers.active ≠ [] ↔ validIdx slides s.currentSlideIndex = true) ∧
    (∀ i, validIdx slides i = true →
      (i ∈ activeIndices s.markers ↔ i ∉ inactiveIndices s.markers)) ∧
    (∀ i, validIdx slides i = false →
      i ∉ activeIndices s.markers ∧ i ∉ inactiveIndices s.markers) := by
  have hwf := reachable_wf cfg slides s h
  unfold NavigatorWF MarkerPartitionWF at hwf
  obtain ⟨hlt, hact, hmem, hnd⟩ := hwf
  by_cases hv : validIdx slides s.currentSlideIndex = true
  · rw [if_pos hv] at hact
    have hlen : s.markers.active.length = 1 := by
      have h2 := congrArg List.length hact
      simpa [activeIndices] using h2
    refine ⟨by omega, ?_, ?_, ?_⟩
    · constructor
      · intro _
        exact hv
      · intro _ hnil
        rw [hnil] at hlen
        exact absurd hlen (by decide)
    · intro i hvi
      constructor
      · intro hiA hiI
        exact ((hmem i).mp hiI).2 hiA
      · intro hiI
        by_contra hiA
        exact hiI ((hmem i).mpr ⟨hvi, hiA⟩)
    · intro i hvi
      constructor
      · intro hiA
        rw [hact, List.mem_singleton] at hiA
        subst hiA
        rw [hvi] at hv
        exact absurd hv (by decide)
      · intro hiI
        have h2 := ((hmem i).mp hiI).1
        rw [hvi] at h2
        exact absurd h2 (by decide)
  · have hvf : validIdx slides s.currentSlideIndex = false := by simpa using hv
    rw [hvf] at hact
    simp only [if_neg (by decide : ¬(false = true))] at hact
    have hA : s.markers.active = [] := List.map_eq_nil_iff.mp hact
    refine ⟨by rw [hA]; decide, ?_, ?_, ?_⟩
    · rw [hA, hvf]
      simp
    · intro i hvi
      have hiI : i ∈ inactiveIndices s.markers := by
        refine (hmem i).mpr ⟨hvi, ?_⟩
        rw [hact]
        simp
      constructor
      · intro hiA
        rw [hact] at hiA
        exact absurd hiA (by simp)
      · intro hiN
        exact absurd hiI hiN
    · intro i hvi
      constructor
      · intro hiA
        rw [hact] at hiA
        exact absurd hiA (by simp)
      · intro hiI
        have h2 := ((hmem i).mp hiI).1
        rw [hvi] at h2
        exact absurd h2 (by decide)

/-- C1 (witness): the invariant evaluated on the concrete post-load state of the
three sample slides (valid, valid, no location), at indices 0 and 2. -/
theorem marker_layers_invariant_witness :
    (initialState sampleConfig sampleSlides).markers.active.length ≤ 1 ∧
    ((initialState sampleConfig sampleSlides).markers.active ≠ [] ↔
      validIdx sampleSlides
        (initialState sampleConfig sampleSlides).currentSlideIndex = true) ∧
    (validIdx sampleSlides 0 = true →
      (0 ∈ activeIndices (initialState sampleConfig sampleSlides).markers ↔
        0 ∉ inactiveIndices (initialState sampleConfig sampleSlides).markers)) ∧
    (validIdx sampleSlides 2 = false →
      2 ∉ activeIndices (initialState sampleConfig sampleSlides).markers ∧
      2 ∉ inactiveIndices (initialState sampleConfig sampleSlides).markers) := by
  obtain ⟨h1, h2, h3, h4⟩ := marker_layers_invariant sampleConfig sampleSlides
    (initialState sampleConfig sampleSlides) (Reachable.init (by decide))
  exact ⟨h1, h2, h3 0, h4 2⟩

/-! ## C9 — round-trip of marker transitions -/

/-- C9: starting from a well-formed marker state whose active member is `a`
(valid location), with `b` also valid (hence inactive whenever `b ≠ a`),
performing the transition to `b` and then the transition back to `a` (each a
`updateMarkerColors` pass, the code's `deactivate previous; activate current`
composition) restores both marker sources to their original contents as sets of
slide indices. -/
theorem marker_transition_round_trip (slides : List Slide) (a b : Nat)
    (m : MarkerLayers) (hwf : MarkerPartitionWF slides a m)
    (hva : validIdx slides a = true) (hvb : validIdx slides b = true) :
    activeIndices m = [a] ∧
    (b ≠ a → b ∈ inactiveIndices m) ∧
    (∀ i, i ∈ activeIndices (updateMarkerColors slides a
        (updateMarkerColors slides b m)) ↔ i ∈ activeIndices m) ∧
    (∀ i, i ∈ inactiveIndices (updateMarkerColors slides a
        (updateMarkerColors slides b m)) ↔ i ∈ inactiveIndices m) := by
  have h1 := updateMarkerColors_wf slides a b m hwf
  have h2 := updateMarkerColors_wf slides b a (updateMarkerColors slides b m) h1
  unfold MarkerPartitionWF at hwf h2
  obtain ⟨hact, hmem, hnd⟩ := hwf
  obtain ⟨hact2, hmem2, hnd2⟩ := h2
  rw [if_pos hva] at hact hact2
  refine ⟨hact, ?_, ?_, ?_⟩
  · intro hba
    refine (hmem b).mpr ⟨hvb, ?_⟩
    rw [hact, List.mem_singleton]
    exact hba
  · intro i
    rw [hact, hact2]
  · intro i
    rw [hmem i, hmem2 i, hact, hact2]

/-- C9 (witness): the round trip 0 → 1 → 0 on the concrete post-build marker
layers of the sample slides. -/
theorem marker_transition_round_trip_witness :
    activeIndices (createAllMarkers sampleSlides 0) = [0] ∧
    (0 ∈ activeIndices (updateMarkerColors sampleSlides 0
        (updateMarkerColors sampleSlides 1 (createAllMarkers sampleSlides 0))) ↔
      0 ∈ activeIndices (createAllMarkers sampleSlides 0)) ∧
    (1 ∈ inactiveIndices (updateMarkerColors sampleSlides 0
        (updateMarkerColors sampleSlides 1 (createAllMarkers sampleSlides 0))) ↔
      1 ∈ inactiveIndices (createAllMarkers sampleSlides 0)) := by
  obtain ⟨h1, h2, h3, h4⟩ := marker_transition_round_trip sampleSlides 0 1
    (createAllMarkers sampleSlides 0) (createAllMarkers_wf sampleSlides 0)
    (by decide) (by decide)
  exact ⟨h1, h3 0, h4 1⟩

/-! ## C8 — path segment registration and highlight styling -/

lemma filterMap_lineSeg_map (styling : Styling) (slides : List Slide) (L : List Nat) :
    ((L.filterMap fun i =>
        if lineQualifies slides i then
          some ({ sourceIndex := i, targetSlideIndex := i + 1, lineColor := styling.lineColor } : LineSegment)
        else none).map (·.sourceIndex)) =
      L.filter (fun i => lineQualifies slides i) := by
  induction L with
  | nil => rfl
  | cons a L ih =>
    rw [List.filterMap_cons, List.filter_cons]
    by_cases hq : lineQualifies slides a = true
    · rw [if_pos hq, if_pos (by simpa using hq)]
      simp only [List.map_cons, ih]
    · have hqf : lineQualifies slides a = false := by simpa using hq
      rw [if_neg (by simp [hqf]), if_neg (by simp [hqf])]
      exact ih

lemma createAllLines_sources (styling : Styling) (slides : List Slide) :
    (createAllLines styling slides).map (·.sourceIndex) =
      (List.range (slides.length - 1)).filter (fun i => lineQualifies slides i) :=
  filterMap_lineSeg_map styling slides (List.range (slides.length - 1))

lemma mem_createAllLines (styling : Styling) (slides : List Slide)
    (seg : LineSegment) (h : seg ∈ createAllLines styling slides) :
    seg.targetSlideIndex = seg.sourceIndex + 1 ∧ seg.lineColor = styling.lineColor ∧
    lineQualifies slides seg.sourceIndex = true ∧
    seg.sourceIndex < slides.length - 1 := by
  unfold createAllLines at h
  rw [List.mem_filterMap] at h
  obtain ⟨i, hiL, hEq⟩ := h
  rw [List.mem_range] at hiL
  by_cases hq : lineQualifies slides i = true
  · rw [if_pos hq] at hEq
    obtain rfl : seg = ({ sourceIndex := i, targetSlideIndex := i + 1, lineColor := styling.lineColor } : LineSegment) :=
      (Option.some.inj hEq).symm
    exact ⟨rfl, rfl, hq, hiL⟩
  · rw [if_neg (by simpa using hq)] at hEq
    exact absurd hEq (by simp)

lemma updateLineColors_keys (styling : Styling) (cur : Nat)
    (lines : List LineSegment) :
    (updateLineColors styling cur lines).map
        (fun l => (l.sourceIndex, l.targetSlideIndex)) =
      lines.map (fun l => (l.sourceIndex, l.targetSlideIndex)) := by
  unfold updateLineColors
  rw [List.map_map]
  apply List.map_congr_left
  intro l _
  by_cases hc : l.targetSlideIndex = cur <;> simp [hc]

lemma updateLineColors_color (styling : Styling) (cur : Nat)
    (lines : List LineSegment) (seg : LineSegment)
    (h : seg ∈ updateLineColors styling cur lines) :
    (seg.targetSlideIndex = cur ∧ seg.lineColor = styling.lineColorActive) ∨
    (seg.targetSlideIndex ≠ cur ∧ seg.lineColor = styling.lineColor) := by
  unfold updateLineColors at h
  rw [List.mem_map] at h
  obtain ⟨l, _, hEq⟩ := h
  by_cases hc : l.targetSlideIndex = cur
  · left
    rw [if_pos hc] at hEq
    rw [← hEq]
    exact ⟨hc, rfl⟩
  · right
    rw [if_neg hc] at hEq
    rw [← hEq]
    exact ⟨hc, rfl⟩

lemma updateLineColors_targets (styling : Styling) (cur : Nat)
    (lines : List LineSegment) :
    (updateLineColors styling cur lines).map (·.targetSlideIndex) =
      lines.map (·.targetSlideIndex) := by
  have h := congrArg (List.map Prod.snd) (updateLineColors_keys styling cur lines)
  rw [List.map_map, List.map_map] at h
  exact h

lemma filter_target_length_le_one (cur : Nat) (p : LineSegment → Bool) :
    ∀ L : List LineSegment, (L.map (·.targetSlideIndex)).Nodup →
      (∀ seg ∈ L, p seg = true → seg.targetSlideIndex = cur) →
      (L.filter p).length ≤ 1 := by
  intro L
  induction L with
  | nil => intro _ _; simp
  | cons l rest ih =>
    intro hnd hp
    rw [List.map_cons, List.nodup_cons] at hnd
    rw [List.filter_cons]
    by_cases hpl : p l = true
    · rw [if_pos hpl]
      have hrest : rest.filter p = [] := by
        rw [List.filter_eq_nil_iff]
        intro x hx hpx
        have hx2 : x.targetSlideIndex = cur := hp x (List.mem_cons_of_mem l hx) hpx
        have hl2 : l.targetSlideIndex = cur := hp l (List.mem_cons_self l rest) hpl
        exact hnd.1 (by rw [hl2, ← hx2]; exact List.mem_map_of_mem _ hx)
      rw [hrest]
      simp
    · rw [if_neg hpl]
      exact ih hnd.2 (fun seg hseg hpseg => hp seg (List.mem_cons_of_mem l hseg) hpseg)

lemma createAllLines_targets_nodup (styling : Styling) (slides : List Slide) :
    ((createAllLines styling slides).map (·.targetSlideIndex)).Nodup := by
  have htgt : (createAllLines styling slides).map (·.targetSlideIndex) =
      ((createAllLines styling slides).map (·.sourceIndex)).map (fun n => n + 1) := by
    rw [List.map_map]
    apply List.map_congr_left
    intro seg hseg
    exact (mem_createAllLines styling slides seg hseg).1
  rw [htgt, createAllLines_sources]
  exact (((List.nodup_range _).filter _).map fun a b => by omega)

lemma updateSlide_lines_of_lt (cfg : Config) (slides : List Slide) (d : Direction)
    (s : StoryMapState) (hlt : s.currentSlideIndex < slides.length) :
    (updateSlide cfg slides d s).lines =
      updateLineColors cfg.styling s.currentSlideIndex s.lines := by
  unfold updateSlide
  cases hg : slides.get? s.currentSlideIndex with
  | none =>
    exfalso
    rw [List.get?_eq_none] at hg
    omega
  | some sl => simp [updateContent_currentSlideIndex, updateContent_lines]

/-- C8: `createAllLines` registers exactly one segment per adjacent pair whose
source slide requests `line === true` with both locations valid — keyed by the
source index, one per key, in increasing slide order, every other pair silently
skipped — each carrying `targetSlideIndex = source + 1` and the base paint
color. A navigation restyles via `updateLineColors` at the new current index:
it adds and removes nothing, paints a segment active exactly when its target
index equals the current slide, and (targets being distinct) at most one
segment ends up active. -/
theorem path_segments_and_highlight (cfg : Config) (slides : List Slide)
    (d : Direction) (s : StoryMapState)
    (hcol : cfg.styling.lineColor ≠ cfg.styling.lineColorActive)
    (hlt : s.currentSlideIndex < slides.length) :
    ((createAllLines cfg.styling slides).map (·.sourceIndex) =
      (List.range (slides.length - 1)).filter (fun i => lineQualifies slides i)) ∧
    (∀ seg ∈ createAllLines cfg.styling slides,
      seg.targetSlideIndex = seg.sourceIndex + 1 ∧
      seg.lineColor = cfg.styling.lineColor ∧
      lineQualifies slides seg.sourceIndex = true) ∧
    List.Pairwise (· < ·) ((createAllLines cfg.styling slides).map (·.sourceIndex)) ∧
    ((updateSlide cfg slides d s).lines =
      updateLineColors cfg.styling s.currentSlideIndex s.lines) ∧
    (∀ lines : List LineSegment,
      (updateLineColors cfg.styling s.currentSlideIndex lines).map
          (fun l => (l.sourceIndex, l.targetSlideIndex)) =
        lines.map (fun l => (l.sourceIndex, l.targetSlideIndex))) ∧
    (∀ lines : List LineSegment, ∀ seg ∈ updateLineColors cfg.styling
        s.currentSlideIndex lines,
      seg.lineColor = (if seg.targetSlideIndex = s.currentSlideIndex then
        cfg.styling.lineColorActive else cfg.styling.lineColor)) ∧
    ((updateLineColors cfg.styling s.currentSlideIndex
        (createAllLines cfg.styling slides)).filter
          (fun seg => seg.lineColor == cfg.styling.lineColorActive)).length ≤ 1 := by
  refine ⟨createAllLines_sources cfg.styling slides, ?_, ?_, ?_, ?_, ?_, ?_⟩
  · intro seg hseg
    obtain ⟨h1, h2, h3, _⟩ := mem_createAllLines cfg.styling slides seg hseg
    exact ⟨h1, h2, h3⟩
  · rw [createAllLines_sources]
    exact (List.pairwise_lt_range _).sublist (List.filter_sublist _)
  · exact updateSlide_lines_of_lt cfg slides d s hlt
  · intro lines
    exact updateLineColors_keys cfg.styling s.currentSlideIndex lines
  · intro lines seg hseg
    rcases updateLineColors_color cfg.styling s.currentSlideIndex lines seg hseg with
      ⟨hc, he⟩ | ⟨hc, he⟩
    · rw [if_pos hc]
      exact he
    · rw [if_neg hc]
      exact he
  · apply filter_target_length_le_one s.currentSlideIndex _ _
      (by rw [updateLineColors_targets]
          exact createAllLines_targets_nodup cfg.styling slides)
    intro seg hseg hp
    rcases updateLineColors_color cfg.styling s.currentSlideIndex
        (createAllLines cfg.styling slides) seg hseg with ⟨hc, _⟩ | ⟨_, he⟩
    · exact hc
    · rw [he] at hp
      rw [beq_iff_eq] at hp
      exact absurd hp hcol

/-- C8 (witness): evaluated on the three sample slides (slide 0 requests a line,
slides 0 and 1 valid, slide 2 without location) at current index 1, where the
single registered segment (source 0, target 1) is the one styled active. -/
theorem path_segments_and_highlight_witness :
    ((createAllLines sampleConfig.styling sampleSlides).map (·.sourceIndex) =
      (List.range (sampleSlides.length - 1)).filter
        (fun i => lineQualifies sampleSlides i)) ∧
    ((updateSlide sampleConfig sampleSlides Direction.none idleState).lines =
      updateLineColors sampleConfig.styling idleState.currentSlideIndex
        idleState.lines) ∧
    ((updateLineColors sampleConfig.styling idleState.currentSlideIndex
        (createAllLines sampleConfig.styling sampleSlides)).filter
          (fun seg => seg.lineColor == sampleConfig.styling.lineColorActive)).length
      ≤ 1 := by
  obtain ⟨h1, h2, h3, h4, h5, h6, h7⟩ := path_segments_and_highlight sampleConfig
    sampleSlides Direction.none idleState (by decide) (by decide)
  exact ⟨h1, h4, h7⟩

end StoryMapCore
